import Mathlib

/-! gopixiu: the Kubernetes resource operator of package core.

A shallow embedding of `pkg/core/cloud_kubernetes.go` (the thirteen methods of
`*cloud` that list, get, create, update and delete Kubernetes objects through a
per-cluster client set) together with the option structs of `api/types/types.go`.

Every method is an effectful Go function.  It is embedded as a pure function of an
environment `Env` (the client registry, the sentinel error and the behaviour of the
remote API servers) that returns the Go return values together with the ordered
list of effects the method performed (remote calls and log lines).
-/

namespace Gopixiu

/-! ## api/types/types.go -/

/-- The struct `types.CloudOptions`. -/
structure CloudOptions where
  CloudName : String
deriving DecidableEq, Repr

/-- The struct `types.ListOptions`. -/
structure ListOptions where
  CloudName : String
  Namespace : String
deriving DecidableEq, Repr

/-- The struct `types.GetOrDeleteOptions`; it embeds `ListOptions`, whose fields Go
promotes, so `o.CloudName` and `o.Namespace` read through the embedded struct. -/
structure GetOrDeleteOptions where
  ListOptions : ListOptions
  ObjectName : String
deriving DecidableEq, Repr

/-- Promoted field `CloudName` of the embedded `ListOptions`. -/
def GetOrDeleteOptions.CloudName (o : GetOrDeleteOptions) : String := o.ListOptions.CloudName

/-- Promoted field `Namespace` of the embedded `ListOptions`. -/
def GetOrDeleteOptions.Namespace (o : GetOrDeleteOptions) : String := o.ListOptions.Namespace

/-! ## Kubernetes objects, errors and the client set (imported packages) -/

/-- The resource kinds the operator touches.  Each stands for one typed client of
client-go: `Deployment` for `AppsV1().Deployments`, `StatefulSet` for
`AppsV1().StatefulSets`, `Job` for `BatchV1().Jobs`, `Namespace` for
`CoreV1().Namespaces` and `Service` for `CoreV1().Services`. -/
inductive Kind where
  | Namespace
  | Deployment
  | StatefulSet
  | Job
  | Service
deriving DecidableEq, Repr

/-- The fields of `metav1.ObjectMeta` the operator reads or that the claims name. -/
structure ObjectMeta where
  Name : String
  Namespace : String
  ResourceVersion : String
deriving DecidableEq, Repr

/-- A Kubernetes API object of kind `k` (`v1.Deployment`, `v1.StatefulSet`,
`batchv1.Job`, `corev1.Namespace`, `corev1.Service`): its object metadata and the
rest of the object (spec and status), which the operator never inspects. -/
structure Resource (k : Kind) where
  ObjectMeta : ObjectMeta
  Body : String
deriving DecidableEq, Repr

/-- Promoted field `Name` of the embedded `ObjectMeta`. -/
def Resource.Name {k : Kind} (r : Resource k) : String := r.ObjectMeta.Name

/-- Promoted field `Namespace` of the embedded `ObjectMeta`. -/
def Resource.Namespace {k : Kind} (r : Resource k) : String := r.ObjectMeta.Namespace

/-- A Go slice: `none` is the nil slice, `some xs` a non-nil slice holding `xs`. -/
abbrev Slice (α : Type) := Option (List α)

/-- A list object (`v1.DeploymentList`, ...): only its `Items` field is read. -/
structure ResourceList (k : Kind) where
  Items : Slice (Resource k)
deriving DecidableEq, Repr

/-- The reason carried by an API status error (`metav1.StatusReason`). -/
inductive StatusReason where
  | Forbidden
  | NotFound
  | AlreadyExists
  | Conflict
  | Invalid
  | InternalError
deriving DecidableEq, Repr

/-- Modelled from the spec: the error taxonomy of the specification (section 7).
The source declares none of these; only the sentinel `clientError` exists. -/
inductive ErrorKind where
  | DuplicateName
  | InvalidConfig
  | ConnectionFailed
  | NotRegistered
  | ClusterUnavailable
  | NotFound
  | AlreadyExists
  | Conflict
  | PermissionDenied
  | Unavailable
  | Unknown
deriving DecidableEq, Repr

/-- A non-nil value of the Go interface `error`.
* `plain`: made by `errors.New` or `fmt.Errorf`;
* `transport`: a network failure reported by the HTTP transport;
* `timeout`: the context deadline expired or the context was cancelled;
* `status`: an API status error (`*apierrors.StatusError`) with its reason;
* `typed`: a value of the taxonomy `ErrorKind`, as the specification describes the
  errors handed to callers. -/
inductive GoError where
  | plain (msg : String)
  | transport (msg : String)
  | timeout (msg : String)
  | status (reason : StatusReason) (msg : String)
  | typed (kind : ErrorKind) (msg : String)
deriving DecidableEq, Repr

/-- The Go interface type `error`: `none` is `nil`. -/
abbrev error := Option GoError

/-- The check `apierrors.IsNotFound`: the error is a status error with reason NotFound. -/
def GoError.IsNotFound : GoError → Bool
  | .status .NotFound _ => true
  | _ => false

/-- A `context.Context`: its deadline, if any, and the identity of its cancellation
token. -/
structure Context where
  deadline : Option Nat
  token : Nat
deriving DecidableEq, Repr

/-- A non-nil `*kubernetes.Clientset`, identified by the cluster connection it holds. -/
structure Clientset where
  id : Nat
deriving DecidableEq, Repr

/-- The verb of a typed-client call with its arguments.  The options argument
(`metav1.ListOptions{}`, `metav1.GetOptions{}`, ...) is the empty literal at every
call site and is left out. -/
inductive Request where
  | List (k : Kind)
  | Get (k : Kind) (name : String)
  | Create (k : Kind) (obj : Resource k)
  | Update (k : Kind) (obj : Resource k)
  | Delete (k : Kind) (name : String)
deriving DecidableEq, Repr

/-- One call on a typed client: the client set it goes through, the context passed,
the namespace the typed client was opened for (`none` for the cluster-scoped
`Namespaces()` client) and the request. -/
structure RemoteCall where
  clientSet : Clientset
  ctx : Context
  ns : Option String
  request : Request
deriving DecidableEq, Repr

/-- What a typed-client call returns.  client-go allocates the result object before
sending the request, so List, Get, Create and Update return a non-nil result object
next to the error; on failure it may be empty or partly filled. -/
def Response : Request → Type
  | .List k => ResourceList k × error
  | .Get k _ => Resource k × error
  | .Create k _ => Resource k × error
  | .Update k _ => Resource k × error
  | .Delete _ _ => error

/-- The error component of a response. -/
def Response.err : {r : Request} → Response r → error
  | .List _, x => x.2
  | .Get _ _, x => x.2
  | .Create _ _, x => x.2
  | .Update _ _, x => x.2
  | .Delete _ _, x => x

/-- An argument of a log line. -/
inductive LogArg where
  | str (s : String)
  | err (e : error)
deriving DecidableEq, Repr

/-- An observable effect of a method: a remote call or a `log.Logger.Errorf` line
(format string and arguments). -/
inductive Effect where
  | remote (c : RemoteCall)
  | log (format : String) (args : List LogArg)
deriving DecidableEq, Repr

/-- The remote calls among a list of effects, in order. -/
def remoteCalls : List Effect → List RemoteCall
  | [] => []
  | .remote c :: es => c :: remoteCalls es
  | .log _ _ :: es => remoteCalls es

/-- What the methods depend on but `cloud_kubernetes.go` does not define:
* `clientSetsGet`: the lookup `clientSets.Get` of the package-level client store
  (declared elsewhere in package core); `none` is the nil pointer it returns for a
  name with no client set;
* `clientError`: the package-level sentinel error (declared elsewhere in package
  core) the methods return for such a name; it is an error value, hence non-nil;
* `remote`: the behaviour of the API servers behind the client sets, one response
  for every call. -/
structure Env where
  clientSetsGet : String → Option Clientset
  clientError : GoError
  remote : (c : RemoteCall) → Response c.request

/-- The Go return values of a method (`value` is `Unit` for methods that return only
an error) and the effects performed, in order. -/
structure Result (α : Type) where
  value : α
  err : error
  effects : List Effect

/-! ## pkg/core/cloud_kubernetes.go -/

/-- The method `(*cloud).ListDeployments`. -/
def ListDeployments (env : Env) (ctx : Context) (listOptions : ListOptions) :
    Result (Slice (Resource .Deployment)) :=
  match env.clientSetsGet listOptions.CloudName with
  | none => ⟨none, some env.clientError, []⟩
  | some clientSet =>
    let call : RemoteCall := ⟨clientSet, ctx, some listOptions.Namespace, .List .Deployment⟩
    let resp : ResourceList .Deployment × error := env.remote call
    let deployments := resp.1
    let err := resp.2
    if err ≠ none then
      ⟨none, err,
        [.remote call,
         .log "failed to list %s deployments: %v" [.str listOptions.Namespace, .err err]]⟩
    else
      ⟨deployments.Items, none, [.remote call]⟩

/-- The method `(*cloud).DeleteDeployment`. -/
def DeleteDeployment (env : Env) (ctx : Context) (deleteOptions : GetOrDeleteOptions) :
    Result Unit :=
  match env.clientSetsGet deleteOptions.CloudName with
  | none => ⟨(), some env.clientError, []⟩
  | some clientSet =>
    let call : RemoteCall :=
      ⟨clientSet, ctx, some deleteOptions.Namespace, .Delete .Deployment deleteOptions.ObjectName⟩
    let err : error := env.remote call
    if err ≠ none then
      ⟨(), err,
        [.remote call,
         .log "failed to delete %s deployment: %v" [.str deleteOptions.Namespace, .err err]]⟩
    else
      ⟨(), none, [.remote call]⟩

/-- The method `(*cloud).CreateDeployment`.  The pointer `deployment` is non-nil (the
method dereferences it unconditionally once the client set is found). -/
def CreateDeployment (env : Env) (ctx : Context) (cloudName : String)
    (deployment : Resource .Deployment) : Result Unit :=
  match env.clientSetsGet cloudName with
  | none => ⟨(), some env.clientError, []⟩
  | some clientSet =>
    let call : RemoteCall :=
      ⟨clientSet, ctx, some deployment.Namespace, .Create .Deployment deployment⟩
    let resp : Resource .Deployment × error := env.remote call
    let err := resp.2
    if err ≠ none then
      ⟨(), err,
        [.remote call,
         .log "failed to create %s %s deployments: %v"
           [.str deployment.Namespace, .str deployment.Name, .err err]]⟩
    else
      ⟨(), none, [.remote call]⟩

/-- The method `(*cloud).CreateNamespace`; the Go parameter `namespace` is written
`nsObject` here. -/
def CreateNamespace (env : Env) (ctx : Context) (cloudName : String)
    (nsObject : Resource .Namespace) : Result Unit :=
  match env.clientSetsGet cloudName with
  | none => ⟨(), some env.clientError, []⟩
  | some clientSet =>
    let call : RemoteCall := ⟨clientSet, ctx, none, .Create .Namespace nsObject⟩
    let resp : Resource .Namespace × error := env.remote call
    let err := resp.2
    if err ≠ none then
      ⟨(), err,
        [.remote call,
         .log "failed to create %s namespace %s: %v"
           [.str cloudName, .str nsObject.Name, .err err]]⟩
    else
      ⟨(), none, [.remote call]⟩

/-- The method `(*cloud).DeleteNamespace`; the Go parameter `namespace` is written
`nsName` here. -/
def DeleteNamespace (env : Env) (ctx : Context) (cloudName : String) (nsName : String) :
    Result Unit :=
  match env.clientSetsGet cloudName with
  | none => ⟨(), some env.clientError, []⟩
  | some clientSet =>
    let call : RemoteCall := ⟨clientSet, ctx, none, .Delete .Namespace nsName⟩
    let err : error := env.remote call
    if err ≠ none then
      ⟨(), err,
        [.remote call,
         .log "failed to delete %s namespace %s: %v" [.str cloudName, .str nsName, .err err]]⟩
    else
      ⟨(), none, [.remote call]⟩

/-- The method `(*cloud).ListJobs`. -/
def ListJobs (env : Env) (ctx : Context) (listOptions : ListOptions) :
    Result (Slice (Resource .Job)) :=
  match env.clientSetsGet listOptions.CloudName with
  | none => ⟨none, some env.clientError, []⟩
  | some clientSet =>
    let call : RemoteCall := ⟨clientSet, ctx, some listOptions.Namespace, .List .Job⟩
    let resp : ResourceList .Job × error := env.remote call
    let jobs := resp.1
    let err := resp.2
    if err ≠ none then
      ⟨none, err,
        [.remote call,
         .log "failed to delete %s deployment: %v" [.str listOptions.Namespace, .err err]]⟩
    else
      ⟨jobs.Items, none, [.remote call]⟩

/-- The method `(*cloud).ListNamespaces`; its last statement is
`return namespaces.Items, err`. -/
def ListNamespaces (env : Env) (ctx : Context) (cloudOptions : CloudOptions) :
    Result (Slice (Resource .Namespace)) :=
  match env.clientSetsGet cloudOptions.CloudName with
  | none => ⟨none, some env.clientError, []⟩
  | some clientSet =>
    let call : RemoteCall := ⟨clientSet, ctx, none, .List .Namespace⟩
    let resp : ResourceList .Namespace × error := env.remote call
    let namespaces := resp.1
    let err := resp.2
    if err ≠ none then
      ⟨none, err,
        [.remote call,
         .log "failed to list namespaces: %v" [.str cloudOptions.CloudName, .err err]]⟩
    else
      ⟨namespaces.Items, err, [.remote call]⟩

/-- The method `(*cloud).ListStatefulsets`; its last statement is
`return statefulsets.Items, err`. -/
def ListStatefulsets (env : Env) (ctx : Context) (listOptions : ListOptions) :
    Result (Slice (Resource .StatefulSet)) :=
  match env.clientSetsGet listOptions.CloudName with
  | none => ⟨none, some env.clientError, []⟩
  | some clientSet =>
    let call : RemoteCall := ⟨clientSet, ctx, some listOptions.Namespace, .List .StatefulSet⟩
    let resp : ResourceList .StatefulSet × error := env.remote call
    let statefulsets := resp.1
    let err := resp.2
    if err ≠ none then
      ⟨none, err,
        [.remote call,
         .log "failed to list statefulsets: %v" [.str listOptions.Namespace, .err err]]⟩
    else
      ⟨statefulsets.Items, err, [.remote call]⟩

/-- The method `(*cloud).GetStatefulset`; the returned pointer is `none` for nil.  Its
last statement is `return statefulset, err`. -/
def GetStatefulset (env : Env) (ctx : Context) (getOptions : GetOrDeleteOptions) :
    Result (Option (Resource .StatefulSet)) :=
  match env.clientSetsGet getOptions.CloudName with
  | none => ⟨none, some env.clientError, []⟩
  | some clientSet =>
    let call : RemoteCall :=
      ⟨clientSet, ctx, some getOptions.Namespace, .Get .StatefulSet getOptions.ObjectName⟩
    let resp : Resource .StatefulSet × error := env.remote call
    let statefulset := resp.1
    let err := resp.2
    if err ≠ none then
      ⟨none, err,
        [.remote call,
         .log "failed to get statefulsets: %v" [.str getOptions.CloudName, .err err]]⟩
    else
      ⟨some statefulset, err, [.remote call]⟩

/-- The method `(*cloud).DeleteStatefulset`; its last statement is `return err`. -/
def DeleteStatefulset (env : Env) (ctx : Context) (deleteOptions : GetOrDeleteOptions) :
    Result Unit :=
  match env.clientSetsGet deleteOptions.CloudName with
  | none => ⟨(), some env.clientError, []⟩
  | some clientSet =>
    let call : RemoteCall :=
      ⟨clientSet, ctx, some deleteOptions.Namespace,
        .Delete .StatefulSet deleteOptions.ObjectName⟩
    let err : error := env.remote call
    if err ≠ none then
      ⟨(), err,
        [.remote call,
         .log "failed to list statefulsets: %v" [.str deleteOptions.CloudName, .err err]]⟩
    else
      ⟨(), err, [.remote call]⟩

/-- The method `(*cloud).UpdateStatefulset`.  The pointer `statefulset` is non-nil (the
method dereferences it unconditionally once the client set is found). -/
def UpdateStatefulset (env : Env) (ctx : Context) (cloudName : String)
    (statefulset : Resource .StatefulSet) : Result Unit :=
  match env.clientSetsGet cloudName with
  | none => ⟨(), some env.clientError, []⟩
  | some clientSet =>
    let call : RemoteCall :=
      ⟨clientSet, ctx, some statefulset.Namespace, .Update .StatefulSet statefulset⟩
    let resp : Resource .StatefulSet × error := env.remote call
    let err := resp.2
    if err ≠ none then
      ⟨(), err,
        [.remote call, .log "failed to update statefulsets: %v" [.str cloudName, .err err]]⟩
    else
      ⟨(), none, [.remote call]⟩

/-- The method `(*cloud).CreateStatefulset`.  The pointer `statefulset` is non-nil (the
method dereferences it unconditionally once the client set is found). -/
def CreateStatefulset (env : Env) (ctx : Context) (cloudName : String)
    (statefulset : Resource .StatefulSet) : Result Unit :=
  match env.clientSetsGet cloudName with
  | none => ⟨(), some env.clientError, []⟩
  | some clientSet =>
    let call : RemoteCall :=
      ⟨clientSet, ctx, some statefulset.Namespace, .Create .StatefulSet statefulset⟩
    let resp : Resource .StatefulSet × error := env.remote call
    let err := resp.2
    if err ≠ none then
      ⟨(), err,
        [.remote call, .log "failed to create statefulsets: %v" [.str cloudName, .err err]]⟩
    else
      ⟨(), none, [.remote call]⟩

/-- The method `(*cloud).ListServices`. -/
def ListServices (env : Env) (ctx : Context) (listOptions : ListOptions) :
    Result (Slice (Resource .Service)) :=
  match env.clientSetsGet listOptions.CloudName with
  | none => ⟨none, some env.clientError, []⟩
  | some clientSet =>
    let call : RemoteCall := ⟨clientSet, ctx, some listOptions.Namespace, .List .Service⟩
    let resp : ResourceList .Service × error := env.remote call
    let services := resp.1
    let err := resp.2
    if err ≠ none then
      ⟨none, err,
        [.remote call,
         .log "failed to list %s %s services: %v"
           [.str listOptions.CloudName, .str listOptions.Namespace, .err err]]⟩
    else
      ⟨services.Items, none, [.remote call]⟩

/-! ## The method set as data -/

/-- What a method returns besides its error, with the Go type forgotten: nothing, a
slice of objects, or a pointer to an object. -/
inductive Returned where
  | nothing
  | items (k : Kind) (v : Slice (Resource k))
  | object (k : Kind) (v : Option (Resource k))
deriving DecidableEq, Repr

/-- No result data: the method has no result besides the error, or the result is the
nil slice or the nil pointer. -/
def Returned.isNil : Returned → Bool
  | .nothing => true
  | .items _ none => true
  | .object _ none => true
  | _ => false

/-- The return values and effects of a method call, with the result type forgotten. -/
structure Outcome where
  returned : Returned
  err : error
  effects : List Effect
deriving DecidableEq, Repr

/-- A call of one of the thirteen methods of `cloud_kubernetes.go` with its arguments. -/
inductive Invocation where
  | ListDeployments (ctx : Context) (listOptions : ListOptions)
  | DeleteDeployment (ctx : Context) (deleteOptions : GetOrDeleteOptions)
  | CreateDeployment (ctx : Context) (cloudName : String) (deployment : Resource .Deployment)
  | CreateNamespace (ctx : Context) (cloudName : String) (nsObject : Resource .Namespace)
  | DeleteNamespace (ctx : Context) (cloudName : String) (nsName : String)
  | ListJobs (ctx : Context) (listOptions : ListOptions)
  | ListNamespaces (ctx : Context) (cloudOptions : CloudOptions)
  | ListStatefulsets (ctx : Context) (listOptions : ListOptions)
  | GetStatefulset (ctx : Context) (getOptions : GetOrDeleteOptions)
  | DeleteStatefulset (ctx : Context) (deleteOptions : GetOrDeleteOptions)
  | UpdateStatefulset (ctx : Context) (cloudName : String) (statefulset : Resource .StatefulSet)
  | CreateStatefulset (ctx : Context) (cloudName : String) (statefulset : Resource .StatefulSet)
  | ListServices (ctx : Context) (listOptions : ListOptions)
deriving DecidableEq, Repr

/-- Forget the result type of a method that returns only an error. -/
def Outcome.ofError (r : Result Unit) : Outcome := ⟨.nothing, r.err, r.effects⟩

/-- Forget the result type of a List method. -/
def Outcome.ofItems {k : Kind} (r : Result (Slice (Resource k))) : Outcome :=
  ⟨.items k r.value, r.err, r.effects⟩

/-- Forget the result type of a Get method. -/
def Outcome.ofObject {k : Kind} (r : Result (Option (Resource k))) : Outcome :=
  ⟨.object k r.value, r.err, r.effects⟩

/-- Run the method an invocation names. -/
def Invocation.run (env : Env) : Invocation → Outcome
  | .ListDeployments ctx o => .ofItems (Gopixiu.ListDeployments env ctx o)
  | .DeleteDeployment ctx o => .ofError (Gopixiu.DeleteDeployment env ctx o)
  | .CreateDeployment ctx n d => .ofError (Gopixiu.CreateDeployment env ctx n d)
  | .CreateNamespace ctx n x => .ofError (Gopixiu.CreateNamespace env ctx n x)
  | .DeleteNamespace ctx n x => .ofError (Gopixiu.DeleteNamespace env ctx n x)
  | .ListJobs ctx o => .ofItems (Gopixiu.ListJobs env ctx o)
  | .ListNamespaces ctx o => .ofItems (Gopixiu.ListNamespaces env ctx o)
  | .ListStatefulsets ctx o => .ofItems (Gopixiu.ListStatefulsets env ctx o)
  | .GetStatefulset ctx o => .ofObject (Gopixiu.GetStatefulset env ctx o)
  | .DeleteStatefulset ctx o => .ofError (Gopixiu.DeleteStatefulset env ctx o)
  | .UpdateStatefulset ctx n x => .ofError (Gopixiu.UpdateStatefulset env ctx n x)
  | .CreateStatefulset ctx n x => .ofError (Gopixiu.CreateStatefulset env ctx n x)
  | .ListServices ctx o => .ofItems (Gopixiu.ListServices env ctx o)

/-- The cluster name the caller passed. -/
def Invocation.cloudName : Invocation → String
  | .ListDeployments _ o => o.CloudName
  | .DeleteDeployment _ o => o.CloudName
  | .CreateDeployment _ n _ => n
  | .CreateNamespace _ n _ => n
  | .DeleteNamespace _ n _ => n
  | .ListJobs _ o => o.CloudName
  | .ListNamespaces _ o => o.CloudName
  | .ListStatefulsets _ o => o.CloudName
  | .GetStatefulset _ o => o.CloudName
  | .DeleteStatefulset _ o => o.CloudName
  | .UpdateStatefulset _ n _ => n
  | .CreateStatefulset _ n _ => n
  | .ListServices _ o => o.CloudName

/-- The context the caller passed. -/
def Invocation.ctx : Invocation → Context
  | .ListDeployments c _ => c
  | .DeleteDeployment c _ => c
  | .CreateDeployment c _ _ => c
  | .CreateNamespace c _ _ => c
  | .DeleteNamespace c _ _ => c
  | .ListJobs c _ => c
  | .ListNamespaces c _ => c
  | .ListStatefulsets c _ => c
  | .GetStatefulset c _ => c
  | .DeleteStatefulset c _ => c
  | .UpdateStatefulset c _ _ => c
  | .CreateStatefulset c _ _ => c
  | .ListServices c _ => c

/-- Whether the invocation is a Create. -/
def Invocation.isCreate : Invocation → Bool
  | .CreateDeployment _ _ _ => true
  | .CreateNamespace _ _ _ => true
  | .CreateStatefulset _ _ _ => true
  | _ => false

/-! ## The specification's failure translation and generic dispatcher -/

/-- Modelled from the spec: the failure translation of section 4.2, which the source
does not contain.  Transport and timeout failures become `Unavailable`, an
authorization rejection `PermissionDenied`, a remote not-found `NotFound`, a remote
conflict (HTTP 409: reasons Conflict and AlreadyExists) `Conflict`, or `AlreadyExists`
when the operation is a create, and anything else `Unknown`. -/
def translate (onCreate : Bool) : GoError → ErrorKind
  | .transport _ => .Unavailable
  | .timeout _ => .Unavailable
  | .status .Forbidden _ => .PermissionDenied
  | .status .NotFound _ => .NotFound
  | .status .Conflict _ => if onCreate then .AlreadyExists else .Conflict
  | .status .AlreadyExists _ => if onCreate then .AlreadyExists else .Conflict
  | .typed kind _ => kind
  | _ => .Unknown

/-- Modelled from the spec: the statement that an invocation hands the caller the
taxonomy value of the failure class of its remote call. -/
def TranslatesFailure (env : Env) (inv : Invocation) : Prop :=
  ∀ c e, c ∈ remoteCalls (inv.run env).effects → Response.err (env.remote c) = some e →
    ∃ msg, (inv.run env).err = some (.typed (translate inv.isCreate e) msg)

/-- The verbs of the generic dispatcher. -/
inductive Verb where
  | List
  | Get
  | Create
  | Update
  | Delete
deriving DecidableEq, Repr

/-- The target of a dispatch: a namespace for List, a namespace and an object name for
Get and Delete, the object itself for Create and Update. -/
@[reducible] def Target : Verb → Kind → Type
  | .List, _ => String
  | .Get, _ => String × String
  | .Create, k => Resource k
  | .Update, k => Resource k
  | .Delete, _ => String × String

/-- The result of a dispatch besides the error: a slice for List, a pointer for Get,
nothing for the other verbs. -/
@[reducible] def Output : Verb → Kind → Type
  | .List, k => Slice (Resource k)
  | .Get, k => Option (Resource k)
  | .Create, _ => Unit
  | .Update, _ => Unit
  | .Delete, _ => Unit

/-- The nil result of a verb. -/
def Output.nil : (v : Verb) → (k : Kind) → Output v k
  | .List, _ => none
  | .Get, _ => none
  | .Create, _ => ()
  | .Update, _ => ()
  | .Delete, _ => ()

/-- The namespace a typed client of kind `k` is opened for: none for the
cluster-scoped kind Namespace, the given namespace for every other kind. -/
def scope (k : Kind) (ns : String) : Option String :=
  match k with
  | .Namespace => none
  | _ => some ns

/-- What a dispatch hands back: the result, the error and the remote calls made. -/
structure Dispatched (v : Verb) (k : Kind) where
  value : Output v k
  err : error
  calls : List RemoteCall

/-- The remote call of a verb on kind `k` through the client set `h`, made once;
its result is handed back on success and dropped on failure. -/
def perform (env : Env) (ctx : Context) (h : Clientset) :
    (v : Verb) → (k : Kind) → Target v k → Dispatched v k
  | .List, k, ns =>
    let call : RemoteCall := ⟨h, ctx, scope k ns, .List k⟩
    let resp : ResourceList k × error := env.remote call
    match resp.2 with
    | some e => ⟨none, some e, [call]⟩
    | none => ⟨resp.1.Items, none, [call]⟩
  | .Get, k, (ns, name) =>
    let call : RemoteCall := ⟨h, ctx, scope k ns, .Get k name⟩
    let resp : Resource k × error := env.remote call
    match resp.2 with
    | some e => ⟨none, some e, [call]⟩
    | none => ⟨some resp.1, none, [call]⟩
  | .Create, k, obj =>
    let call : RemoteCall := ⟨h, ctx, scope k obj.Namespace, .Create k obj⟩
    let resp : Resource k × error := env.remote call
    ⟨(), resp.2, [call]⟩
  | .Update, k, obj =>
    let call : RemoteCall := ⟨h, ctx, scope k obj.Namespace, .Update k obj⟩
    let resp : Resource k × error := env.remote call
    ⟨(), resp.2, [call]⟩
  | .Delete, k, (ns, name) =>
    let call : RemoteCall := ⟨h, ctx, scope k ns, .Delete k name⟩
    let err : error := env.remote call
    ⟨(), err, [call]⟩

/-- The generic dispatcher the specification describes: look the client set up by
cluster name, answer with the cluster-unavailable error when it is missing, otherwise
perform the remote call of the verb on the kind once and hand back its result or
error. -/
def dispatch (env : Env) (ctx : Context) (v : Verb) (k : Kind) (cluster : String)
    (target : Target v k) : Dispatched v k :=
  match env.clientSetsGet cluster with
  | none => ⟨Output.nil v k, some env.clientError, []⟩
  | some h => perform env ctx h v k target

/-- A method result agrees with a dispatch: same result, same error, same remote calls. -/
def Agrees (v : Verb) (k : Kind) (r : Result (Output v k)) (d : Dispatched v k) : Prop :=
  r.value = d.value ∧ r.err = d.err ∧ remoteCalls r.effects = d.calls

/-! ## Test environments -/

/-- A response that carries the error `e` and an empty result object (for Create and
Update the object sent is echoed). -/
def emptyResponse (e : error) : (r : Request) → Response r
  | .List _ => (⟨none⟩, e)
  | .Get _ name => (⟨⟨name, "", ""⟩, ""⟩, e)
  | .Create _ obj => (obj, e)
  | .Update _ obj => (obj, e)
  | .Delete _ _ => e

/-- An environment with the single registered cluster `c1`, whose API server answers
every call with the error `e` (`none`: success with an empty result). -/
def demoEnv (e : error) : Env where
  clientSetsGet := fun name => if name = "c1" then some ⟨1⟩ else none
  clientError := .plain "cluster client not found"
  remote := fun c => emptyResponse e c.request

/-- A context used in the examples. -/
def demoCtx : Context := ⟨some 30, 7⟩

/-- A statefulset in namespace `default` at resource version 41. -/
def demoStatefulset : Resource .StatefulSet := ⟨⟨"web", "default", "41"⟩, "replicas=3"⟩

/-- Two deployments of namespace `default`, in the order the API server lists them. -/
def demoDeployments : List (Resource .Deployment) :=
  [⟨⟨"web", "default", "12"⟩, "replicas=2"⟩, ⟨⟨"api", "default", "7"⟩, "replicas=1"⟩]

/-- An environment with the single registered cluster `c1`, whose API server lists
`demoDeployments` and answers every other call with success and an empty result. -/
def listingEnv : Env where
  clientSetsGet := fun name => if name = "c1" then some ⟨1⟩ else none
  clientError := .plain "cluster client not found"
  remote := fun c =>
    match c.request with
    | .List .Deployment => (⟨some demoDeployments⟩, none)
    | r => emptyResponse none r

/-- An environment with the single registered cluster `c1`, whose API server fails
every call with the error `e` and, for List and Get, still hands back a filled result
object next to the error. -/
def failingEnv (e : GoError) : Env where
  clientSetsGet := fun name => if name = "c1" then some ⟨1⟩ else none
  clientError := .plain "cluster client not found"
  remote := fun c =>
    match c.request with
    | .List .Deployment => (⟨some demoDeployments⟩, some e)
    | .Get .StatefulSet _ => (demoStatefulset, some e)
    | r => emptyResponse (some e) r

/-! ## Properties -/

/-- C1. For each of the thirteen methods and every cluster name for which
`clientSets.Get` yields no client set, the method returns `clientError`, returns no
result data (the nil slice, the nil pointer, or nothing besides the error) and
performs no effect at all, in particular no remote call. -/
theorem missing_client_returns_clientError (env : Env) (inv : Invocation)
    (hmiss : env.clientSetsGet inv.cloudName = none) :
    (inv.run env).err = some env.clientError ∧
    (inv.run env).returned.isNil = true ∧
    remoteCalls (inv.run env).effects = [] ∧
    (inv.run env).effects = [] := by
  cases inv <;>
    simp only [Invocation.cloudName, GetOrDeleteOptions.CloudName] at hmiss <;>
    simp [Invocation.run, Outcome.ofItems, Outcome.ofError, Outcome.ofObject,
      Gopixiu.ListDeployments, Gopixiu.DeleteDeployment, Gopixiu.CreateDeployment,
      Gopixiu.CreateNamespace, Gopixiu.DeleteNamespace, Gopixiu.ListJobs,
      Gopixiu.ListNamespaces, Gopixiu.ListStatefulsets, Gopixiu.GetStatefulset,
      Gopixiu.DeleteStatefulset, Gopixiu.UpdateStatefulset, Gopixiu.CreateStatefulset,
      Gopixiu.ListServices, GetOrDeleteOptions.CloudName, hmiss, Returned.isNil, remoteCalls]

/-- Witness for C1: listing the namespaces of the unregistered cluster `nonexistent`. -/
theorem missing_client_returns_clientError_witness :
    (demoEnv none).clientSetsGet "nonexistent" = none ∧
    (Invocation.run (demoEnv none) (.ListNamespaces demoCtx ⟨"nonexistent"⟩)).err
      = some (.plain "cluster client not found") ∧
    remoteCalls (Invocation.run (demoEnv none) (.ListNamespaces demoCtx ⟨"nonexistent"⟩)).effects
      = [] :=
  have h : (demoEnv none).clientSetsGet "nonexistent" = none := by decide
  have t := missing_client_returns_clientError (demoEnv none)
    (.ListNamespaces demoCtx ⟨"nonexistent"⟩) h
  ⟨h, t.1, t.2.2.1⟩


/-- C6. On a registered cluster every method issues exactly one remote call, whether
that call succeeds or fails, and the call is made through the client set the registry
returned and with the very context the caller passed in. -/
theorem exactly_one_remote_call (env : Env) (inv : Invocation) (h : Clientset)
    (hget : env.clientSetsGet inv.cloudName = some h) :
    ∃ c, remoteCalls (inv.run env).effects = [c] ∧ c.ctx = inv.ctx ∧ c.clientSet = h := by
  cases inv <;>
    simp only [Invocation.cloudName, GetOrDeleteOptions.CloudName] at hget <;>
    simp only [Invocation.run, Invocation.ctx, Outcome.ofItems, Outcome.ofError,
      Outcome.ofObject, Gopixiu.ListDeployments, Gopixiu.DeleteDeployment,
      Gopixiu.CreateDeployment, Gopixiu.CreateNamespace, Gopixiu.DeleteNamespace,
      Gopixiu.ListJobs, Gopixiu.ListNamespaces, Gopixiu.ListStatefulsets,
      Gopixiu.GetStatefulset, Gopixiu.DeleteStatefulset, Gopixiu.UpdateStatefulset,
      Gopixiu.CreateStatefulset, Gopixiu.ListServices, GetOrDeleteOptions.CloudName, hget] <;>
    split_ifs with he <;>
    simp [remoteCalls]

/-- Witness for C6: a failing update on the registered cluster `c1` still makes one call. -/
theorem exactly_one_remote_call_witness :
    (demoEnv (some (.timeout "context deadline exceeded"))).clientSetsGet "c1" = some ⟨1⟩ ∧
    ∃ c, remoteCalls (Invocation.run (demoEnv (some (.timeout "context deadline exceeded")))
        (.UpdateStatefulset demoCtx "c1" demoStatefulset)).effects = [c] ∧
      c.ctx = demoCtx ∧ c.clientSet = ⟨1⟩ :=
  have h : (demoEnv (some (.timeout "context deadline exceeded"))).clientSetsGet "c1"
      = some ⟨1⟩ := by decide
  ⟨h, exactly_one_remote_call (demoEnv (some (.timeout "context deadline exceeded")))
    (.UpdateStatefulset demoCtx "c1" demoStatefulset) ⟨1⟩ h⟩

/-- C5. No method swallows a failure: the returned error is nil exactly when the
registry lookup yielded a client set and the single remote call returned no error.
When the lookup yields nothing the error is non-nil; when it yields the client set `h`
the method makes exactly one remote call `c`, through `h`, and its error is nil if and
only if the response of `c` carries no error.  This covers the methods ending in
`return <value>, err`. -/
theorem error_nil_iff_lookup_and_call_succeed (env : Env) (inv : Invocation) :
    (env.clientSetsGet inv.cloudName = none → (inv.run env).err ≠ none) ∧
    (∀ h, env.clientSetsGet inv.cloudName = some h →
      ∃ c, remoteCalls (inv.run env).effects = [c] ∧ c.clientSet = h ∧
        ((inv.run env).err = none ↔ Response.err (env.remote c) = none)) := by
  cases inv <;>
    simp only [Invocation.run, Invocation.cloudName, Outcome.ofItems, Outcome.ofError,
      Outcome.ofObject, Gopixiu.ListDeployments, Gopixiu.DeleteDeployment,
      Gopixiu.CreateDeployment, Gopixiu.CreateNamespace, Gopixiu.DeleteNamespace,
      Gopixiu.ListJobs, Gopixiu.ListNamespaces, Gopixiu.ListStatefulsets,
      Gopixiu.GetStatefulset, Gopixiu.DeleteStatefulset, Gopixiu.UpdateStatefulset,
      Gopixiu.CreateStatefulset, Gopixiu.ListServices, GetOrDeleteOptions.CloudName] <;>
    cases hg : env.clientSetsGet _ <;>
    simp [remoteCalls, Response.err] <;>
    split_ifs with he <;>
    simp_all [remoteCalls, Response.err]

/-- Witness for C5: on the registered cluster `c1` whose remote list call succeeds,
`ListNamespaces` makes one call through the client set of `c1` and returns a nil
error. -/
theorem error_nil_iff_lookup_and_call_succeed_witness :
    (demoEnv none).clientSetsGet "c1" = some ⟨1⟩ ∧
    (Invocation.run (demoEnv none) (.ListNamespaces demoCtx ⟨"c1"⟩)).err = none ∧
    ∃ c, remoteCalls (Invocation.run (demoEnv none) (.ListNamespaces demoCtx ⟨"c1"⟩)).effects
        = [c] ∧ c.clientSet = ⟨1⟩ ∧
      ((Invocation.run (demoEnv none) (.ListNamespaces demoCtx ⟨"c1"⟩)).err = none ↔
        Response.err ((demoEnv none).remote c) = none) :=
  have h : (demoEnv none).clientSetsGet "c1" = some ⟨1⟩ := by decide
  ⟨h, by decide, (error_nil_iff_lookup_and_call_succeed (demoEnv none)
    (.ListNamespaces demoCtx ⟨"c1"⟩)).2 ⟨1⟩ h⟩

/-- C3 as amended. Whenever a method makes a remote call, the error it returns is the
error value that call returned, unchanged (nil when the call succeeded): no failure is
translated into another error value. -/
theorem remote_error_returned_unchanged (env : Env) (inv : Invocation) (c : RemoteCall)
    (hc : c ∈ remoteCalls (inv.run env).effects) :
    (inv.run env).err = Response.err (env.remote c) := by
  revert hc
  cases inv <;>
    simp only [Invocation.run, Invocation.cloudName, Outcome.ofItems, Outcome.ofError,
      Outcome.ofObject, Gopixiu.ListDeployments, Gopixiu.DeleteDeployment,
      Gopixiu.CreateDeployment, Gopixiu.CreateNamespace, Gopixiu.DeleteNamespace,
      Gopixiu.ListJobs, Gopixiu.ListNamespaces, Gopixiu.ListStatefulsets,
      Gopixiu.GetStatefulset, Gopixiu.DeleteStatefulset, Gopixiu.UpdateStatefulset,
      Gopixiu.CreateStatefulset, Gopixiu.ListServices, GetOrDeleteOptions.CloudName] <;>
    cases hg : env.clientSetsGet _ <;>
    simp [remoteCalls] <;>
    split_ifs with he <;>
    simp [remoteCalls] <;>
    intro hc <;>
    subst hc <;>
    simp_all [Response.err]


/-- Witness for C3 as amended: a stale update on `c1` returns the conflict error of the
API server as the client library reported it. -/
theorem remote_error_returned_unchanged_witness :
    (⟨⟨1⟩, demoCtx, some "default", .Update .StatefulSet demoStatefulset⟩ : RemoteCall) ∈
      remoteCalls (Invocation.run (demoEnv (some (.status .Conflict "object has been modified")))
        (.UpdateStatefulset demoCtx "c1" demoStatefulset)).effects ∧
    (Invocation.run (demoEnv (some (.status .Conflict "object has been modified")))
        (.UpdateStatefulset demoCtx "c1" demoStatefulset)).err
      = some (.status .Conflict "object has been modified") :=
  have h : (⟨⟨1⟩, demoCtx, some "default", .Update .StatefulSet demoStatefulset⟩ : RemoteCall) ∈
      remoteCalls (Invocation.run (demoEnv (some (.status .Conflict "object has been modified")))
        (.UpdateStatefulset demoCtx "c1" demoStatefulset)).effects := by decide
  ⟨h, remote_error_returned_unchanged _ _ _ h⟩

/-- Counterexample to C3 as stated: on the registered cluster `c1` the remote update
fails with a transport error; `UpdateStatefulset` returns that transport error itself,
not the taxonomy value `Unavailable` the failure translation assigns to it. -/
theorem failure_translation_counterexample :
    (demoEnv (some (.transport "connection refused"))).clientSetsGet "c1" = some ⟨1⟩ ∧
    translate false (.transport "connection refused") = .Unavailable ∧
    (UpdateStatefulset (demoEnv (some (.transport "connection refused"))) demoCtx "c1"
        demoStatefulset).err = some (.transport "connection refused") ∧
    ¬ TranslatesFailure (demoEnv (some (.transport "connection refused")))
        (.UpdateStatefulset demoCtx "c1" demoStatefulset) := by
  refine ⟨by decide, rfl, by decide, ?_⟩
  intro h
  obtain ⟨msg, hmsg⟩ := h ⟨⟨1⟩, demoCtx, some "default", .Update .StatefulSet demoStatefulset⟩
    (.transport "connection refused") (by decide) rfl
  have herr : (Invocation.run (demoEnv (some (.transport "connection refused")))
      (.UpdateStatefulset demoCtx "c1" demoStatefulset)).err
      = some (.transport "connection refused") := by decide
  rw [herr] at hmsg
  cases hmsg

/-- C4. On a registered cluster, when the remote delete reports that the object does
not exist (a status error with reason NotFound), each of `DeleteDeployment`,
`DeleteNamespace` and `DeleteStatefulset` returns a non-nil error that is that
not-found error; none of them reports success. -/
theorem delete_of_absent_object_returns_not_found (env : Env) (ctx : Context) :
    (∀ (o : GetOrDeleteOptions) (h : Clientset) (e : GoError),
      env.clientSetsGet o.CloudName = some h →
      Response.err (env.remote ⟨h, ctx, some o.Namespace, .Delete .Deployment o.ObjectName⟩)
        = some e →
      e.IsNotFound = true →
      ∃ e', (DeleteDeployment env ctx o).err = some e' ∧ e' = e ∧ e'.IsNotFound = true) ∧
    (∀ (cloudName nsName : String) (h : Clientset) (e : GoError),
      env.clientSetsGet cloudName = some h →
      Response.err (env.remote ⟨h, ctx, none, .Delete .Namespace nsName⟩) = some e →
      e.IsNotFound = true →
      ∃ e', (DeleteNamespace env ctx cloudName nsName).err = some e' ∧ e' = e ∧
        e'.IsNotFound = true) ∧
    (∀ (o : GetOrDeleteOptions) (h : Clientset) (e : GoError),
      env.clientSetsGet o.CloudName = some h →
      Response.err (env.remote ⟨h, ctx, some o.Namespace, .Delete .StatefulSet o.ObjectName⟩)
        = some e →
      e.IsNotFound = true →
      ∃ e', (DeleteStatefulset env ctx o).err = some e' ∧ e' = e ∧ e'.IsNotFound = true) := by
  refine ⟨?_, ?_, ?_⟩
  · intro o h e hget hresp hnf
    simp only [Response.err] at hresp
    exact ⟨e, by simp [DeleteDeployment, hget, hresp], rfl, hnf⟩
  · intro cloudName nsName h e hget hresp hnf
    simp only [Response.err] at hresp
    exact ⟨e, by simp [DeleteNamespace, hget, hresp], rfl, hnf⟩
  · intro o h e hget hresp hnf
    simp only [Response.err] at hresp
    exact ⟨e, by simp [DeleteStatefulset, hget, hresp], rfl, hnf⟩

/-- Witness for C4: deleting the absent namespace `missing` on the registered cluster
`c1` returns the not-found error. -/
theorem delete_of_absent_object_returns_not_found_witness :
    (demoEnv (some (.status .NotFound "namespace missing not found"))).clientSetsGet "c1"
      = some ⟨1⟩ ∧
    ∃ e', (DeleteNamespace (demoEnv (some (.status .NotFound "namespace missing not found")))
        demoCtx "c1" "missing").err = some e' ∧
      e' = .status .NotFound "namespace missing not found" ∧ e'.IsNotFound = true :=
  have h : (demoEnv (some (.status .NotFound "namespace missing not found"))).clientSetsGet
      "c1" = some ⟨1⟩ := by decide
  ⟨h, (delete_of_absent_object_returns_not_found
    (demoEnv (some (.status .NotFound "namespace missing not found"))) demoCtx).2.1
      "c1" "missing" ⟨1⟩ (.status .NotFound "namespace missing not found") h rfl rfl⟩

/-- C2. For each List method on a registered cluster whose remote list call succeeds,
the returned slice is the `Items` slice of the remote response itself (same elements,
same order, same length, nothing filtered, reordered or cut) and the error is nil; so
an empty remote list gives an empty result with no error. -/
theorem list_returns_remote_items (env : Env) (ctx : Context) (h : Clientset) :
    (∀ o : ListOptions, env.clientSetsGet o.CloudName = some h →
      ∀ resp : ResourceList .Deployment × error,
        env.remote ⟨h, ctx, some o.Namespace, .List .Deployment⟩ = resp → resp.2 = none →
        (ListDeployments env ctx o).value = resp.1.Items ∧
          (ListDeployments env ctx o).err = none) ∧
    (∀ o : ListOptions, env.clientSetsGet o.CloudName = some h →
      ∀ resp : ResourceList .Job × error,
        env.remote ⟨h, ctx, some o.Namespace, .List .Job⟩ = resp → resp.2 = none →
        (ListJobs env ctx o).value = resp.1.Items ∧ (ListJobs env ctx o).err = none) ∧
    (∀ o : CloudOptions, env.clientSetsGet o.CloudName = some h →
      ∀ resp : ResourceList .Namespace × error,
        env.remote ⟨h, ctx, none, .List .Namespace⟩ = resp → resp.2 = none →
        (ListNamespaces env ctx o).value = resp.1.Items ∧
          (ListNamespaces env ctx o).err = none) ∧
    (∀ o : ListOptions, env.clientSetsGet o.CloudName = some h →
      ∀ resp : ResourceList .StatefulSet × error,
        env.remote ⟨h, ctx, some o.Namespace, .List .StatefulSet⟩ = resp → resp.2 = none →
        (ListStatefulsets env ctx o).value = resp.1.Items ∧
          (ListStatefulsets env ctx o).err = none) ∧
    (∀ o : ListOptions, env.clientSetsGet o.CloudName = some h →
      ∀ resp : ResourceList .Service × error,
        env.remote ⟨h, ctx, some o.Namespace, .List .Service⟩ = resp → resp.2 = none →
        (ListServices env ctx o).value = resp.1.Items ∧ (ListServices env ctx o).err = none) := by
  refine ⟨?_, ?_, ?_, ?_, ?_⟩ <;>
    intro o hget resp hresp hok <;>
    subst hresp
  · simp [ListDeployments, hget, hok]
  · simp [ListJobs, hget, hok]
  · simp [ListNamespaces, hget, hok]
  · simp [ListStatefulsets, hget, hok]
  · simp [ListServices, hget, hok]


/-- Witness for C2: listing the deployments of `default` on `c1` returns the two
deployments of the response in the order of the response. -/
theorem list_returns_remote_items_witness :
    listingEnv.clientSetsGet "c1" = some ⟨1⟩ ∧
    (ListDeployments listingEnv demoCtx ⟨"c1", "default"⟩).value = some demoDeployments ∧
    (ListDeployments listingEnv demoCtx ⟨"c1", "default"⟩).err = none :=
  have h : listingEnv.clientSetsGet "c1" = some ⟨1⟩ := by decide
  ⟨h, (list_returns_remote_items listingEnv demoCtx ⟨1⟩).1 ⟨"c1", "default"⟩ h
    (⟨some demoDeployments⟩, none) rfl rfl⟩

/-- C10. For the five List methods and `GetStatefulset`, whenever the returned error is
non-nil (missing client set or failed remote call) the returned result is nil, whatever
result object the failed remote call handed back. -/
theorem error_excludes_result (env : Env) (ctx : Context) :
    (∀ o : ListOptions, (ListDeployments env ctx o).err ≠ none →
      (ListDeployments env ctx o).value = none) ∧
    (∀ o : ListOptions, (ListJobs env ctx o).err ≠ none → (ListJobs env ctx o).value = none) ∧
    (∀ o : CloudOptions, (ListNamespaces env ctx o).err ≠ none →
      (ListNamespaces env ctx o).value = none) ∧
    (∀ o : ListOptions, (ListStatefulsets env ctx o).err ≠ none →
      (ListStatefulsets env ctx o).value = none) ∧
    (∀ o : ListOptions, (ListServices env ctx o).err ≠ none →
      (ListServices env ctx o).value = none) ∧
    (∀ o : GetOrDeleteOptions, (GetStatefulset env ctx o).err ≠ none →
      (GetStatefulset env ctx o).value = none) := by
  refine ⟨?_, ?_, ?_, ?_, ?_, ?_⟩ <;> intro o
  · simp only [ListDeployments]
    cases env.clientSetsGet o.CloudName <;> simp
    split_ifs <;> simp_all
  · simp only [ListJobs]
    cases env.clientSetsGet o.CloudName <;> simp
    split_ifs <;> simp_all
  · simp only [ListNamespaces]
    cases env.clientSetsGet o.CloudName <;> simp
    split_ifs <;> simp_all
  · simp only [ListStatefulsets]
    cases env.clientSetsGet o.CloudName <;> simp
    split_ifs <;> simp_all
  · simp only [ListServices]
    cases env.clientSetsGet o.CloudName <;> simp
    split_ifs <;> simp_all
  · simp only [GetStatefulset]
    cases env.clientSetsGet o.CloudName <;> simp
    split_ifs <;> simp_all

/-- Witness for C10: the remote Get fails with a timeout yet hands back a filled
object; `GetStatefulset` returns the nil pointer with the error. -/
theorem error_excludes_result_witness :
    (failingEnv (.timeout "context deadline exceeded")).remote
        ⟨⟨1⟩, demoCtx, some "default", .Get .StatefulSet "web"⟩
      = (demoStatefulset, some (.timeout "context deadline exceeded")) ∧
    (GetStatefulset (failingEnv (.timeout "context deadline exceeded")) demoCtx
        ⟨⟨"c1", "default"⟩, "web"⟩).err ≠ none ∧
    (GetStatefulset (failingEnv (.timeout "context deadline exceeded")) demoCtx
        ⟨⟨"c1", "default"⟩, "web"⟩).value = none :=
  have h : (GetStatefulset (failingEnv (.timeout "context deadline exceeded")) demoCtx
      ⟨⟨"c1", "default"⟩, "web"⟩).err ≠ none := by decide
  ⟨rfl, h, (error_excludes_result (failingEnv (.timeout "context deadline exceeded"))
    demoCtx).2.2.2.2.2 ⟨⟨"c1", "default"⟩, "web"⟩ h⟩

/-- C7. On a registered cluster the only remote call of `UpdateStatefulset` is one
Update that carries the statefulset of the caller unchanged, resource version included,
in the namespace recorded in that object; no Get is issued, before or after. -/
theorem update_statefulset_writes_without_reading (env : Env) (ctx : Context)
    (cloudName : String) (statefulset : Resource .StatefulSet) (h : Clientset)
    (hget : env.clientSetsGet cloudName = some h) :
    remoteCalls (UpdateStatefulset env ctx cloudName statefulset).effects
      = [⟨h, ctx, some statefulset.Namespace, .Update .StatefulSet statefulset⟩] ∧
    (∀ c ∈ remoteCalls (UpdateStatefulset env ctx cloudName statefulset).effects,
      ∀ k name, c.request ≠ .Get k name) ∧
    (∀ c ∈ remoteCalls (UpdateStatefulset env ctx cloudName statefulset).effects,
      ∀ k obj, c.request = .Update k obj →
        obj.ObjectMeta.ResourceVersion = statefulset.ObjectMeta.ResourceVersion) := by
  have hcalls : remoteCalls (UpdateStatefulset env ctx cloudName statefulset).effects
      = [⟨h, ctx, some statefulset.Namespace, .Update .StatefulSet statefulset⟩] := by
    simp only [UpdateStatefulset, hget]
    split_ifs <;> simp [remoteCalls]
  refine ⟨hcalls, ?_, ?_⟩
  · intro c hc k name
    rw [hcalls] at hc
    simp only [List.mem_singleton] at hc
    subst hc
    simp
  · intro c hc k obj hreq
    rw [hcalls] at hc
    simp only [List.mem_singleton] at hc
    subst hc
    cases hreq
    rfl

/-- Witness for C7: updating `demoStatefulset` (resource version 41) on `c1`. -/
theorem update_statefulset_writes_without_reading_witness :
    (demoEnv none).clientSetsGet "c1" = some ⟨1⟩ ∧
    remoteCalls (UpdateStatefulset (demoEnv none) demoCtx "c1" demoStatefulset).effects
      = [⟨⟨1⟩, demoCtx, some "default",
          .Update .StatefulSet ⟨⟨"web", "default", "41"⟩, "replicas=3"⟩⟩] :=
  have h : (demoEnv none).clientSetsGet "c1" = some ⟨1⟩ := by decide
  ⟨h, (update_statefulset_writes_without_reading (demoEnv none) demoCtx "c1"
    demoStatefulset ⟨1⟩ h).1⟩


/-- C8. On a registered cluster every method makes its remote call through the client
set `clientSets.Get` returned for the given cluster name and through no other.  List,
Get and Delete of deployments, jobs, statefulsets and services address the namespace
(and object name) of the options; Create and Update of deployments and statefulsets
address the namespace recorded in the object passed; the namespace methods use the
cluster-scoped client and pass only the object or its name. -/
theorem calls_address_named_cluster_and_target (env : Env) (ctx : Context) (h : Clientset) :
    (∀ o : ListOptions, env.clientSetsGet o.CloudName = some h →
      remoteCalls (ListDeployments env ctx o).effects
        = [⟨h, ctx, some o.Namespace, .List .Deployment⟩]) ∧
    (∀ o : GetOrDeleteOptions, env.clientSetsGet o.CloudName = some h →
      remoteCalls (DeleteDeployment env ctx o).effects
        = [⟨h, ctx, some o.Namespace, .Delete .Deployment o.ObjectName⟩]) ∧
    (∀ (cloudName : String) (deployment : Resource .Deployment),
      env.clientSetsGet cloudName = some h →
      remoteCalls (CreateDeployment env ctx cloudName deployment).effects
        = [⟨h, ctx, some deployment.ObjectMeta.Namespace, .Create .Deployment deployment⟩]) ∧
    (∀ (cloudName : String) (nsObject : Resource .Namespace),
      env.clientSetsGet cloudName = some h →
      remoteCalls (CreateNamespace env ctx cloudName nsObject).effects
        = [⟨h, ctx, none, .Create .Namespace nsObject⟩]) ∧
    (∀ cloudName nsName : String, env.clientSetsGet cloudName = some h →
      remoteCalls (DeleteNamespace env ctx cloudName nsName).effects
        = [⟨h, ctx, none, .Delete .Namespace nsName⟩]) ∧
    (∀ o : ListOptions, env.clientSetsGet o.CloudName = some h →
      remoteCalls (ListJobs env ctx o).effects = [⟨h, ctx, some o.Namespace, .List .Job⟩]) ∧
    (∀ o : CloudOptions, env.clientSetsGet o.CloudName = some h →
      remoteCalls (ListNamespaces env ctx o).effects = [⟨h, ctx, none, .List .Namespace⟩]) ∧
    (∀ o : ListOptions, env.clientSetsGet o.CloudName = some h →
      remoteCalls (ListStatefulsets env ctx o).effects
        = [⟨h, ctx, some o.Namespace, .List .StatefulSet⟩]) ∧
    (∀ o : GetOrDeleteOptions, env.clientSetsGet o.CloudName = some h →
      remoteCalls (GetStatefulset env ctx o).effects
        = [⟨h, ctx, some o.Namespace, .Get .StatefulSet o.ObjectName⟩]) ∧
    (∀ o : GetOrDeleteOptions, env.clientSetsGet o.CloudName = some h →
      remoteCalls (DeleteStatefulset env ctx o).effects
        = [⟨h, ctx, some o.Namespace, .Delete .StatefulSet o.ObjectName⟩]) ∧
    (∀ (cloudName : String) (statefulset : Resource .StatefulSet),
      env.clientSetsGet cloudName = some h →
      remoteCalls (UpdateStatefulset env ctx cloudName statefulset).effects
        = [⟨h, ctx, some statefulset.ObjectMeta.Namespace, .Update .StatefulSet statefulset⟩]) ∧
    (∀ (cloudName : String) (statefulset : Resource .StatefulSet),
      env.clientSetsGet cloudName = some h →
      remoteCalls (CreateStatefulset env ctx cloudName statefulset).effects
        = [⟨h, ctx, some statefulset.ObjectMeta.Namespace, .Create .StatefulSet statefulset⟩]) ∧
    (∀ o : ListOptions, env.clientSetsGet o.CloudName = some h →
      remoteCalls (ListServices env ctx o).effects
        = [⟨h, ctx, some o.Namespace, .List .Service⟩]) := by
  refine ⟨?_, ?_, ?_, ?_, ?_, ?_, ?_, ?_, ?_, ?_, ?_, ?_, ?_⟩
  · intro o hget
    simp only [ListDeployments, hget]
    split_ifs <;> simp [remoteCalls]
  · intro o hget
    simp only [DeleteDeployment, hget]
    split_ifs <;> simp [remoteCalls]
  · intro n d hget
    simp only [CreateDeployment, hget]
    split_ifs <;> simp [remoteCalls, Resource.Namespace]
  · intro n x hget
    simp only [CreateNamespace, hget]
    split_ifs <;> simp [remoteCalls]
  · intro n x hget
    simp only [DeleteNamespace, hget]
    split_ifs <;> simp [remoteCalls]
  · intro o hget
    simp only [ListJobs, hget]
    split_ifs <;> simp [remoteCalls]
  · intro o hget
    simp only [ListNamespaces, hget]
    split_ifs <;> simp [remoteCalls]
  · intro o hget
    simp only [ListStatefulsets, hget]
    split_ifs <;> simp [remoteCalls]
  · intro o hget
    simp only [GetStatefulset, hget]
    split_ifs <;> simp [remoteCalls]
  · intro o hget
    simp only [DeleteStatefulset, hget]
    split_ifs <;> simp [remoteCalls]
  · intro n x hget
    simp only [UpdateStatefulset, hget]
    split_ifs <;> simp [remoteCalls, Resource.Namespace]
  · intro n x hget
    simp only [CreateStatefulset, hget]
    split_ifs <;> simp [remoteCalls, Resource.Namespace]
  · intro o hget
    simp only [ListServices, hget]
    split_ifs <;> simp [remoteCalls]

/-- Witness for C8: creating the deployment `web` of namespace `default` on `c1`. -/
theorem calls_address_named_cluster_and_target_witness :
    listingEnv.clientSetsGet "c1" = some ⟨1⟩ ∧
    remoteCalls (CreateDeployment listingEnv demoCtx "c1"
        ⟨⟨"web", "default", ""⟩, "replicas=2"⟩).effects
      = [⟨⟨1⟩, demoCtx, some "default",
          .Create .Deployment ⟨⟨"web", "default", ""⟩, "replicas=2"⟩⟩] :=
  have h : listingEnv.clientSetsGet "c1" = some ⟨1⟩ := by decide
  ⟨h, (calls_address_named_cluster_and_target listingEnv demoCtx ⟨1⟩).2.2.1 "c1"
    ⟨⟨"web", "default", ""⟩, "replicas=2"⟩ h⟩

/-- C9. Every method of the source returns the same result and the same error, and
makes the same remote calls, as the generic dispatcher `dispatch` taken at the verb and
kind of the method, for every input and every behaviour of the remote API. -/
theorem methods_refine_dispatch (env : Env) (ctx : Context) :
    (∀ o : ListOptions, Agrees .List .Deployment (ListDeployments env ctx o)
      (dispatch env ctx .List .Deployment o.CloudName o.Namespace)) ∧
    (∀ o : GetOrDeleteOptions, Agrees .Delete .Deployment (DeleteDeployment env ctx o)
      (dispatch env ctx .Delete .Deployment o.CloudName (o.Namespace, o.ObjectName))) ∧
    (∀ (cloudName : String) (deployment : Resource .Deployment),
      Agrees .Create .Deployment (CreateDeployment env ctx cloudName deployment)
        (dispatch env ctx .Create .Deployment cloudName deployment)) ∧
    (∀ (cloudName : String) (nsObject : Resource .Namespace),
      Agrees .Create .Namespace (CreateNamespace env ctx cloudName nsObject)
        (dispatch env ctx .Create .Namespace cloudName nsObject)) ∧
    (∀ cloudName nsName : String,
      Agrees .Delete .Namespace (DeleteNamespace env ctx cloudName nsName)
        (dispatch env ctx .Delete .Namespace cloudName ("", nsName))) ∧
    (∀ o : ListOptions, Agrees .List .Job (ListJobs env ctx o)
      (dispatch env ctx .List .Job o.CloudName o.Namespace)) ∧
    (∀ o : CloudOptions, Agrees .List .Namespace (ListNamespaces env ctx o)
      (dispatch env ctx .List .Namespace o.CloudName "")) ∧
    (∀ o : ListOptions, Agrees .List .StatefulSet (ListStatefulsets env ctx o)
      (dispatch env ctx .List .StatefulSet o.CloudName o.Namespace)) ∧
    (∀ o : GetOrDeleteOptions, Agrees .Get .StatefulSet (GetStatefulset env ctx o)
      (dispatch env ctx .Get .StatefulSet o.CloudName (o.Namespace, o.ObjectName))) ∧
    (∀ o : GetOrDeleteOptions, Agrees .Delete .StatefulSet (DeleteStatefulset env ctx o)
      (dispatch env ctx .Delete .StatefulSet o.CloudName (o.Namespace, o.ObjectName))) ∧
    (∀ (cloudName : String) (statefulset : Resource .StatefulSet),
      Agrees .Update .StatefulSet (UpdateStatefulset env ctx cloudName statefulset)
        (dispatch env ctx .Update .StatefulSet cloudName statefulset)) ∧
    (∀ (cloudName : String) (statefulset : Resource .StatefulSet),
      Agrees .Create .StatefulSet (CreateStatefulset env ctx cloudName statefulset)
        (dispatch env ctx .Create .StatefulSet cloudName statefulset)) ∧
    (∀ o : ListOptions, Agrees .List .Service (ListServices env ctx o)
      (dispatch env ctx .List .Service o.CloudName o.Namespace)) := by
  refine ⟨?_, ?_, ?_, ?_, ?_, ?_, ?_, ?_, ?_, ?_, ?_, ?_, ?_⟩
  · intro o
    simp only [Agrees, ListDeployments, dispatch]
    cases env.clientSetsGet o.CloudName <;> simp [Output.nil, perform, scope, remoteCalls]
    split <;> split <;> simp_all [remoteCalls]
  · intro o
    simp only [Agrees, DeleteDeployment, dispatch]
    cases env.clientSetsGet o.CloudName <;> simp [Output.nil, perform, scope, remoteCalls]
    split <;> simp_all [remoteCalls, Resource.Namespace]
  · intro n d
    simp only [Agrees, CreateDeployment, dispatch]
    cases env.clientSetsGet n <;> simp [Output.nil, perform, scope, remoteCalls]
    split <;> simp_all [remoteCalls, Resource.Namespace]
  · intro n x
    simp only [Agrees, CreateNamespace, dispatch]
    cases env.clientSetsGet n <;> simp [Output.nil, perform, scope, remoteCalls]
    split <;> simp_all [remoteCalls, Resource.Namespace]
  · intro n x
    simp only [Agrees, DeleteNamespace, dispatch]
    cases env.clientSetsGet n <;> simp [Output.nil, perform, scope, remoteCalls]
    split <;> simp_all [remoteCalls, Resource.Namespace]
  · intro o
    simp only [Agrees, ListJobs, dispatch]
    cases env.clientSetsGet o.CloudName <;> simp [Output.nil, perform, scope, remoteCalls]
    split <;> split <;> simp_all [remoteCalls]
  · intro o
    simp only [Agrees, ListNamespaces, dispatch]
    cases env.clientSetsGet o.CloudName <;> simp [Output.nil, perform, scope, remoteCalls]
    split <;> split <;> simp_all [remoteCalls]
  · intro o
    simp only [Agrees, ListStatefulsets, dispatch]
    cases env.clientSetsGet o.CloudName <;> simp [Output.nil, perform, scope, remoteCalls]
    split <;> split <;> simp_all [remoteCalls]
  · intro o
    simp only [Agrees, GetStatefulset, dispatch]
    cases env.clientSetsGet o.CloudName <;> simp [Output.nil, perform, scope, remoteCalls]
    split <;> split <;> simp_all [remoteCalls]
  · intro o
    simp only [Agrees, DeleteStatefulset, dispatch]
    cases env.clientSetsGet o.CloudName <;> simp [Output.nil, perform, scope, remoteCalls]
    split <;> simp_all [remoteCalls, Resource.Namespace]
  · intro n x
    simp only [Agrees, UpdateStatefulset, dispatch]
    cases env.clientSetsGet n <;> simp [Output.nil, perform, scope, remoteCalls]
    split <;> simp_all [remoteCalls, Resource.Namespace]
  · intro n x
    simp only [Agrees, CreateStatefulset, dispatch]
    cases env.clientSetsGet n <;> simp [Output.nil, perform, scope, remoteCalls]
    split <;> simp_all [remoteCalls, Resource.Namespace]
  · intro o
    simp only [Agrees, ListServices, dispatch]
    cases env.clientSetsGet o.CloudName <;> simp [Output.nil, perform, scope, remoteCalls]
    split <;> split <;> simp_all [remoteCalls]

end Gopixiu
